import Mathlib

/-!
Verification of the notification pipeline of `wtc.py` (what-the-call).

The script polls icinga instances for notifications, aggregates and sorts
them by timestamp, filters them by contact name and prints a colorized
summary.  The development below is a shallow embedding of the functions of
`src/wtc.py`:

* pure string manipulation (`generate_url`, `state_string`, the line
  rendering of `text_output`) is translated directly;
* the external libraries are modelled as parameters: the HTTP GET plus
  `json.loads` of `get_instance_notifications` becomes a `fetch` function
  returning either parsed rows or a decode error, and the compiled regex
  `args.filter` becomes a predicate `String → Bool` (the truthiness of
  `pattern.match`);
* Python exceptions and `sys.exit` are modelled by `PyRun`, which carries
  the list of lines printed so far together with either a normal result or
  the fault that terminated the run;
* CPython's `list.sort(key=..., reverse=True)` is a stable descending sort
  that raises `TypeError` as soon as it compares two incomparable keys
  (number vs string, or `None` vs anything).  It is modelled in two layers:
  `sortDescByTs` is the stable merge sort under the flipped key comparison
  (the unique stable sort for that total preorder), and `pySortByTsDesc`
  returns it only when the keys are pairwise comparable, raising
  `TypeError` otherwise, exactly as the interpreter does.
-/

namespace Wtc

/-- Raw JSON value found in the `notification_timestamp` field: the wire
format delivers either a number or a numeric string.  (Non-integral JSON
numbers are not modelled; the claims only concern integers and strings.) -/
inductive TSVal where
  | num (n : Int)
  | str (s : String)
deriving DecidableEq

/-- One notification object as parsed from the JSON response.  Every field
of interest is optional: `row.get(key)` yields `None` for a missing key.
`url` is the field added by `row.update({"url": url})` (src line 65). -/
structure Record where
  host_name : Option String := none
  service_description : Option String := none
  service_display_name : Option String := none
  notification_timestamp : Option TSVal := none
  notification_state : Option String := none
  notification_contact_name : Option String := none
  url : Option String := none
deriving DecidableEq

/-- The configuration snapshot `args` (src lines 150-230) restricted to the
fields the pipeline reads.  `filter` is the truthiness of
`args.filter.match`, an external regex engine, hence a plain predicate.
`tzOffset` is the offset (in seconds) of the local timezone used by
`datetime.fromtimestamp`.  `limit` is non-negative (a negative `--limit`
behaves exactly like 0, since `counter < limit` never holds). -/
structure Config where
  instances : List String
  limit : Nat
  filter : String → Bool
  disable_urls : Bool
  tzOffset : Int

/-- A fault that aborts the Python process: `TypeError` and `ValueError`
from the interpreter, or `SystemExit` raised by `exit(code)`. -/
inductive PyFault where
  | typeError
  | valueError
  | systemExit (code : Nat)
deriving DecidableEq

/-- The observable behaviour of a piece of the script: the lines printed to
stdout, and either a value or the fault that terminated execution. -/
structure PyRun (α : Type) where
  out : List String
  result : Except PyFault α

instance {α : Type} [DecidableEq α] : DecidableEq (Except PyFault α) := fun a b =>
  match a, b with
  | .ok x, .ok y =>
    if h : x = y then .isTrue (by rw [h]) else .isFalse (by intro hc; cases hc; exact h rfl)
  | .error e, .error f =>
    if h : e = f then .isTrue (by rw [h]) else .isFalse (by intro hc; cases hc; exact h rfl)
  | .ok _, .error _ => .isFalse (by intro hc; cases hc)
  | .error _, .ok _ => .isFalse (by intro hc; cases hc)

instance {α : Type} [DecidableEq α] : DecidableEq (PyRun α) := fun a b =>
  if h1 : a.out = b.out then
    if h2 : a.result = b.result then
      .isTrue (by cases a; cases b; cases h1; cases h2; rfl)
    else .isFalse (by intro hc; cases hc; exact h2 rfl)
  else .isFalse (by intro hc; cases hc; exact h1 rfl)

/-- Python f-string interpolation of a possibly absent value: `None`
renders as the four characters `None`. -/
def pyFStr : Option String → String
  | none => "None"
  | some s => s

/-- All items of the list, provided every one of them is present. -/
def seqOpts : List (Option String) → Option (List String)
  | [] => some []
  | none :: _ => none
  | some s :: rest => (seqOpts rest).map (fun ss => s :: ss)

/-- Python `sep.join(items)`: raises `TypeError` as soon as an item is not
a string (here: is `None`). -/
def pyJoin (sep : String) (items : List (Option String)) : Except PyFault String :=
  match seqOpts items with
  | some ss => .ok (String.intercalate sep ss)
  | none => .error .typeError

/-- Decimal value of a digit string; `none` when a non-digit occurs.
(An empty list yields `some 0`; emptiness is checked by the callers.) -/
def decDigits (cs : List Char) : Option Nat :=
  cs.foldl
    (fun acc c =>
      match acc with
      | none => none
      | some n => if c.isDigit then some (n * 10 + (c.toNat - 48)) else none)
    (some 0)

/-- Python `int(s)` on a string: an optional sign followed by at least one
decimal digit.  (CPython additionally strips surrounding whitespace and
allows `_` separators between digits; no claim depends on those.) -/
def pyIntOfString (s : String) : Option Int :=
  match s.data with
  | [] => none
  | '-' :: rest =>
    if rest = [] then none else (decDigits rest).map (fun n => -(n : Int))
  | '+' :: rest =>
    if rest = [] then none else (decDigits rest).map (fun n => (n : Int))
  | cs => (decDigits cs).map (fun n => (n : Int))

/-- `int(r.get("notification_timestamp"))` (src line 102): `int(None)`
raises `TypeError`, `int` of a number is itself, `int` of a string must
spell an integer literal or `ValueError` is raised. -/
def pyIntTS : Option TSVal → Except PyFault Int
  | none => .error .typeError
  | some (.num n) => .ok n
  | some (.str s) =>
    match pyIntOfString s with
    | some n => .ok n
    | none => .error .valueError

/-- colorama escape code `Fore.GREEN`. -/
def Fore_GREEN : String := "\x1b[32m"
/-- colorama escape code `Fore.YELLOW`. -/
def Fore_YELLOW : String := "\x1b[33m"
/-- colorama escape code `Fore.RED`. -/
def Fore_RED : String := "\x1b[31m"
/-- colorama escape code `Fore.CYAN`. -/
def Fore_CYAN : String := "\x1b[36m"
/-- colorama escape code `Fore.RESET`. -/
def Fore_RESET : String := "\x1b[39m"
/-- colorama escape code `Style.BRIGHT`. -/
def Style_BRIGHT : String := "\x1b[1m"
/-- colorama escape code `Style.RESET_ALL`. -/
def Style_RESET_ALL : String := "\x1b[0m"

/-- `generate_url` (src lines 30-41).  The caller passes
`row.get("host_name")` for `host`, which may be `None`; an f-string
interpolates `None` as the literal text `None`. -/
def generate_url (inst : String) (host : Option String) (service : Option String) : String :=
  match service with
  | none => inst ++ "/dashboard#!/monitoring/host/show?host=" ++ pyFStr host
  | some s =>
      inst ++ "/dashboard#!/monitoring/service/show?host=" ++ pyFStr host ++ "&service=" ++ s

/-- `state_string` (src lines 87-95): `states.get(state, state)` on the
four-entry dict; any other value (including `None`) is returned
unchanged. -/
def state_string (state : Option String) : Option String :=
  match state with
  | none => none
  | some s =>
    if s = "0" then some (Fore_GREEN ++ "OK" ++ Fore_RESET)
    else if s = "1" then some (Fore_YELLOW ++ "WARN" ++ Fore_RESET)
    else if s = "2" then some (Fore_RED ++ "CRIT" ++ Fore_RESET)
    else if s = "3" then some (Fore_CYAN ++ "UNKN" ++ Fore_RESET)
    else some s

/-- Zero-pad to (at least) two digits, Python `f"{n:02d}"` for `n ≥ 0`. -/
def pad2 (n : Nat) : String :=
  if n < 10 then "0" ++ toString n else toString n

/-- Zero-pad a year to four digits (`strftime` directive `%Y`). -/
def pad4 (y : Int) : String :=
  if y < 0 then toString y
  else if y < 10 then "000" ++ toString y
  else if y < 100 then "00" ++ toString y
  else if y < 1000 then "0" ++ toString y
  else toString y

/-- Proleptic Gregorian civil date `(year, month, day)` of a count of days
since 1970-01-01 (Howard Hinnant's `civil_from_days`, using truncating
integer division exactly as the C++ original). -/
def civil_from_days (z0 : Int) : Int × Nat × Nat :=
  let z := z0 + 719468
  let era : Int := (if 0 ≤ z then z else z - 146096).tdiv 146097
  let doe : Nat := (z - era * 146097).toNat
  let yoe : Nat := (doe - doe / 1460 + doe / 36524 - doe / 146096) / 365
  let y : Int := (yoe : Int) + era * 400
  let doy : Nat := doe - (365 * yoe + yoe / 4 - yoe / 100)
  let mp : Nat := (5 * doy + 2) / 153
  let d : Nat := doy - (153 * mp + 2) / 5 + 1
  let m : Nat := if mp < 10 then mp + 3 else mp - 9
  (if m ≤ 2 then y + 1 else y, m, d)

/-- `show_time` (src lines 83-85):
`datetime.fromtimestamp(ts).strftime('%Y-%m-%d %H:%M:%S')`.  The local
timezone is modelled as a fixed offset from UTC in seconds (DST switching
and the range errors `fromtimestamp` raises for out-of-range inputs are
not modelled; no claim depends on them).  Python's floor division and
non-negative modulus for the positive divisor 86400 are `Int.fdiv` and
`Int.emod`. -/
def show_time (tzOffset : Int) (ts : Int) : String :=
  let t := ts + tzOffset
  let days := t.fdiv 86400
  let secs := (t.emod 86400).toNat
  let c := civil_from_days days
  pad4 c.1 ++ "-" ++ pad2 c.2.1 ++ "-" ++ pad2 c.2.2 ++ " " ++
    pad2 (secs / 3600) ++ ":" ++ pad2 (secs % 3600 / 60) ++ ":" ++ pad2 (secs % 60)

/-- `sort_by_ts` (src lines 68-70): the sort key is the raw value of the
`notification_timestamp` field. -/
def sort_by_ts (elem : Record) : Option TSVal :=
  elem.notification_timestamp

/-- Comparison of raw sort keys.  Python compares numbers by value and
strings lexicographically by code point; comparing a number with a string,
or `None` with anything, raises `TypeError`.  `List.mergeSort` needs a
total Boolean relation, so the cross-kind cases below carry an arbitrary
value (`none < num _ < str _`); the sort model `pySortByTsDesc` consults
this function only behind the `tsKeysComparable` guard, under which every
comparison made is within one kind and coincides with Python's. -/
def tsKeyLe : Option TSVal → Option TSVal → Bool
  | none, _ => true
  | some _, none => false
  | some (.num a), some (.num b) => decide (a ≤ b)
  | some (.num _), some (.str _) => true
  | some (.str _), some (.num _) => false
  | some (.str a), some (.str b) => decide (a.data ≤ b.data)

/-- The record's raw sort key is a number. -/
def isNumKey (r : Record) : Bool :=
  match sort_by_ts r with
  | some (.num _) => true
  | _ => false

/-- The record's raw sort key is a string. -/
def isStrKey (r : Record) : Bool :=
  match sort_by_ts r with
  | some (.str _) => true
  | _ => false

/-- Whether `list.sort(key=sort_by_ts)` completes on this list.  CPython
raises `TypeError` at the first incomparable comparison; comparable pairs
are number/number and string/string only (`None` is comparable with
nothing, not even itself).  A comparison sort orders every element
relative to every other through chains of performed comparisons, so with
two or more records the sort succeeds exactly when all keys are of one
comparable kind; with at most one record no comparison is performed and
the sort trivially succeeds, whatever the key. -/
def tsKeysComparable (l : List Record) : Bool :=
  decide (l.length ≤ 1) || l.all isNumKey || l.all isStrKey

/-- The stable descending order by raw timestamp key that
`returns.sort(key=sort_by_ts, reverse=True)` produces when it completes:
CPython's sort is stable, and `reverse=True` yields the stable descending
order (ties keep their original relative order), which is exactly the
stable merge sort under the flipped key comparison. -/
def sortDescByTs (l : List Record) : List Record :=
  l.mergeSort (fun a b => tsKeyLe (sort_by_ts b) (sort_by_ts a))

/-- `returns.sort(key=sort_by_ts, reverse=True)` (src line 80) with its
error path: the sorted list when all comparisons performed are between
comparable keys, and the `TypeError` that aborts the process otherwise. -/
def pySortByTsDesc (l : List Record) : Except PyFault (List Record) :=
  if tsKeysComparable l then .ok (sortDescByTs l) else .error .typeError

/-- `get_instance_notifications` (src lines 43-66).  The HTTP GET plus
`json.loads` of the response body are external effects, abstracted into
`fetch`: it returns the parsed rows, or `Except.error ()` when the body is
not valid JSON (`json.decoder.JSONDecodeError`).  On a decode error the
script prints a diagnostic naming the instance and calls `exit(1)`
(src lines 56-57); otherwise every row is decorated in place with its
generated URL (src lines 59-65). -/
def get_instance_notifications (fetch : String → Except Unit (List Record))
    (inst : String) : PyRun (List Record) :=
  match fetch inst with
  | .error _ =>
      { out := ["error decoding json from " ++ inst ++ ". Login error?"],
        result := .error (.systemExit 1) }
  | .ok rows =>
      { out := [],
        result := .ok (rows.map (fun r =>
          { r with url := some (generate_url inst r.host_name r.service_description) })) }

/-- The accumulation loop of `data_of_instances` (src lines 74-79):
`returns.extend(...)` per instance, aborting when a fetch aborts. -/
def data_of_instancesAux (fetch : String → Except Unit (List Record)) :
    List String → List Record → PyRun (List Record)
  | [], acc => { out := [], result := .ok acc }
  | i :: rest, acc =>
    let g := get_instance_notifications fetch i
    match g.result with
    | .error e => { out := g.out, result := .error e }
    | .ok rows =>
      let r := data_of_instancesAux fetch rest (acc ++ rows)
      { out := g.out ++ r.out, result := r.result }

/-- `data_of_instances` (src lines 72-81): concatenate the per-instance
fetches, then sort descending by the raw timestamp key; a `TypeError`
raised by the sort on incomparable keys propagates and aborts the run. -/
def data_of_instances (fetch : String → Except Unit (List Record))
    (instances : List String) : PyRun (List Record) :=
  let r := data_of_instancesAux fetch instances []
  match r.result with
  | .error e => { out := r.out, result := .error e }
  | .ok rs => { out := r.out, result := pySortByTsDesc rs }

/-- The URL line `f'   \x60-{Fore.GREEN}{Style.BRIGHT}{url}{Style.RESET_ALL}'`
(src line 120); a `None` url is interpolated as the text `None`. -/
def urlLine (url : Option String) : String :=
  "   `-" ++ Fore_GREEN ++ Style_BRIGHT ++ pyFStr url ++ Style_RESET_ALL

/-- The loop of `text_output` (src lines 99-123) with its running
`counter`.  Per record, in source order: `int(...)` of the raw timestamp
(may raise), the remaining field reads (never raise), then the contact
check, the filter check and the limit check; a printed record contributes
its summary line and, unless `--disable-urls`, its URL line; a matching
record at the limit triggers `break`. -/
def text_outputAux (cfg : Config) (limit : Nat) : List Record → Nat → PyRun Unit
  | [], _ => { out := [], result := .ok () }
  | r :: rest, counter =>
    match pyIntTS r.notification_timestamp with
    | .error e => { out := [], result := .error e }
    | .ok tsv =>
      let timestamp := show_time cfg.tzOffset tsv
      let state := state_string r.notification_state
      match r.notification_contact_name with
      | none => text_outputAux cfg limit rest counter
      | some c =>
        if cfg.filter c then
          if counter < limit then
            match pyJoin " | " [some (pad2 (counter + 1)), some timestamp, state,
                r.host_name, r.service_display_name] with
            | .error e => { out := [], result := .error e }
            | .ok line =>
              let printed := if cfg.disable_urls then [line] else [line, urlLine r.url]
              let t := text_outputAux cfg limit rest (counter + 1)
              { out := printed ++ t.out, result := t.result }
          else { out := [], result := .ok () }
        else text_outputAux cfg limit rest counter

/-- `text_output` (src lines 97-123). -/
def text_output (cfg : Config) (notifications : List Record) (limit : Nat) : PyRun Unit :=
  text_outputAux cfg limit notifications 0

/-- `show_data` (src lines 125-132): fetch and aggregate all instances,
then print. -/
def show_data (fetch : String → Except Unit (List Record)) (cfg : Config) : PyRun Unit :=
  let d := data_of_instances fetch cfg.instances
  match d.result with
  | .error e => { out := d.out, result := .error e }
  | .ok notifs =>
    let t := text_output cfg notifs cfg.limit
    { out := d.out ++ t.out, result := t.result }

/-- Outcome of one execution of the loop body (clear screen, `show_data`,
`wait_for_key`) or of the single `show_data()` call: normal completion, a
`KeyboardInterrupt` delivered during it, or a fault it raised. -/
inductive PyResult (α : Type) where
  | ok (a : α)
  | keyboardInterrupt
  | fault (e : PyFault)

/-- The `while True` watch loop (src lines 233-242): iteration `k` runs
`body k`; `except KeyboardInterrupt: exit(0)` turns an interrupt into exit
status 0; a `SystemExit` from `exit(c)` inside the body propagates and
ends the process with status `c`; any other unhandled exception ends the
process with CPython's generic failure status 1.  `fuel` bounds how many
iterations are examined (`none` = still looping). -/
def watch_loop (body : Nat → PyResult Unit) : Nat → Nat → Option Nat
  | 0, _ => none
  | fuel + 1, k =>
    match body k with
    | .ok _ => watch_loop body fuel (k + 1)
    | .keyboardInterrupt => some 0
    | .fault (.systemExit c) => some c
    | .fault _ => some 1

/-- The driver (src lines 232-244): with `--watch` the guarded loop runs;
without it, `show_data()` runs once with no handler around it, so a
`KeyboardInterrupt` is unhandled and CPython terminates with a non-zero
status (130 when the interpreter re-raises SIGINT; only its being
non-zero matters below), and normal completion exits 0. -/
def run_main (watch : Bool) (body : Nat → PyResult Unit) (fuel : Nat) : Option Nat :=
  if watch then watch_loop body fuel 0
  else
    match body 0 with
    | .ok _ => some 0
    | .keyboardInterrupt => some 130
    | .fault (.systemExit c) => some c
    | .fault _ => some 1

/-! ### Derived notions used to state the claims -/

/-- A record survives the contact checks of src lines 108-109: the contact
name is present and the filter regex matches it. -/
def keep (cfg : Config) (r : Record) : Bool :=
  match r.notification_contact_name with
  | none => false
  | some c => cfg.filter c

/-- The fields interpolated into the summary line are all strings, so
`" | ".join` succeeds (src lines 111-117). -/
def printable (r : Record) : Bool :=
  r.host_name.isSome && r.service_display_name.isSome &&
    (state_string r.notification_state).isSome

/-- The integer value of a convertible raw timestamp (0 otherwise). -/
def tsOf (r : Record) : Int :=
  match pyIntTS r.notification_timestamp with
  | .ok n => n
  | .error _ => 0

/-- The block of lines a printed record contributes, `counter` being the
0-based count of records printed before it. -/
def renderOk (cfg : Config) (counter : Nat) (r : Record) : List String :=
  String.intercalate " | "
      [pad2 (counter + 1), show_time cfg.tzOffset (tsOf r),
        (state_string r.notification_state).getD "", r.host_name.getD "",
        r.service_display_name.getD ""] ::
    (if cfg.disable_urls then [] else [urlLine r.url])

/-- `x` is a raw timestamp value at least as large as `y` under Python's
own comparison: both are numbers, or both are strings (any mixed pair is
incomparable in Python). -/
def tsRawGe : Option TSVal → Option TSVal → Prop
  | some (.num a), some (.num b) => b ≤ a
  | some (.str a), some (.str b) => b.data ≤ a.data
  | _, _ => False

/-! ### Concrete fixtures for witnesses and counterexamples -/

/-- A fully populated record whose contact matches the match-all filter. -/
def recGood : Record :=
  { host_name := some "web01", service_description := some "disk",
    service_display_name := some "Disk Space",
    notification_timestamp := some (.num 1700000000),
    notification_state := some "2", notification_contact_name := some "alice",
    url := some "https://icinga.example/u1" }

/-- A record without contact name whose raw timestamp is not an integer
literal, so `int(...)` raises `ValueError` when it is examined. -/
def recBadTs : Record :=
  { recGood with
    notification_timestamp := some (.str "oops")
    notification_contact_name := none }

/-- A record without contact name whose raw timestamp converts fine. -/
def recSkipOk : Record :=
  { recGood with
    notification_timestamp := some (.num 0)
    notification_contact_name := none }

/-- Like `recGood` but the service display name is absent. -/
def recNoService : Record :=
  { recGood with service_display_name := none }

/-- A configuration with the defaults: match-all filter, limit 10, URL
lines enabled; the local timezone is UTC. -/
def cfgEx : Config :=
  { instances := ["https://icinga.example"], limit := 10,
    filter := fun _ => true, disable_urls := false, tzOffset := 0 }

/-- A fetch oracle whose one bad instance returns a non-JSON body. -/
def fetchEx : String → Except Unit (List Record) :=
  fun s => if s = "https://bad.example" then .error () else .ok []

/-- An un-decorated row as a fetch would deliver it. -/
def recRaw : Record :=
  { host_name := some "db01", notification_timestamp := some (.num 42),
    notification_state := some "0", notification_contact_name := some "bob" }

/-- A fetch oracle that always returns the single row `recRaw`. -/
def fetchOne : String → Except Unit (List Record) := fun _ => .ok [recRaw]

/-- `recRaw` as decorated by `get_instance_notifications` for the instance
`https://one.example`. -/
def recRawDecorated : Record :=
  { recRaw with
    url := some (generate_url "https://one.example" recRaw.host_name recRaw.service_description) }

/-- A watch-loop body that completes its first iteration normally and is
interrupted in its second. -/
def bodyEx : Nat → PyResult Unit :=
  fun n => if n = 0 then .ok () else .keyboardInterrupt

/-- A row whose raw timestamp is numeric. -/
def recNumTs : Record :=
  { host_name := some "nhost", notification_timestamp := some (.num 100),
    notification_state := some "0", notification_contact_name := some "carol" }

/-- A row whose raw timestamp is a numeric string — allowed by the wire
format, but incomparable with a numeric one. -/
def recStrTs : Record :=
  { host_name := some "shost", notification_timestamp := some (.str "200"),
    notification_state := some "1", notification_contact_name := some "dave" }

/-- Two instances answering with timestamps of different raw kinds. -/
def fetchMixed : String → Except Unit (List Record) :=
  fun s => if s = "https://num.example" then .ok [recNumTs] else .ok [recStrTs]

/-! ### Helper lemmas -/

theorem text_outputAux_skip_absent (cfg : Config) (limit : Nat) (r : Record) (l2 : List Record)
    (hcontact : r.notification_contact_name = none)
    (hts : ∃ n, pyIntTS r.notification_timestamp = .ok n) :
    ∀ (l1 : List Record) (counter : Nat),
      text_outputAux cfg limit (l1 ++ r :: l2) counter =
        text_outputAux cfg limit (l1 ++ l2) counter := by
  obtain ⟨n, hn⟩ := hts
  intro l1
  induction l1 with
  | nil =>
    intro counter
    simp [text_outputAux, hn, hcontact]
  | cons a t ih =>
    intro counter
    simp only [List.cons_append, text_outputAux]
    cases ha : pyIntTS a.notification_timestamp with
    | error e => rfl
    | ok m =>
      cases hc : a.notification_contact_name with
      | none => exact ih counter
      | some c =>
        cases hf : cfg.filter c with
        | false => simpa [hf] using ih counter
        | true =>
          by_cases hcl : counter < limit
          · simp only [hf, hcl, if_true]
            cases pyJoin " | " [some (pad2 (counter + 1)), some (show_time cfg.tzOffset m),
                state_string a.notification_state, a.host_name, a.service_display_name] with
            | error e => rfl
            | ok line => simp [ih (counter + 1)]
          · simp [hf, hcl]

theorem data_of_instancesAux_fail (fetch : String → Except Unit (List Record))
    (i : String) (l2 : List String) (hfail : fetch i = .error ()) :
    ∀ (l1 : List String) (acc : List Record),
      (∀ j ∈ l1, ∃ rows, fetch j = .ok rows) →
      data_of_instancesAux fetch (l1 ++ i :: l2) acc =
        { out := ["error decoding json from " ++ i ++ ". Login error?"],
          result := .error (.systemExit 1) } := by
  intro l1
  induction l1 with
  | nil =>
    intro acc _
    simp [data_of_instancesAux, get_instance_notifications, hfail]
  | cons a t ih =>
    intro acc hok
    obtain ⟨rows, hrows⟩ := hok a (by simp)
    have ht : ∀ j ∈ t, ∃ rows, fetch j = .ok rows := fun j hj => hok j (by simp [hj])
    simp [data_of_instancesAux, get_instance_notifications, hrows, ih _ ht]

theorem watch_loop_interrupt (body : Nat → PyResult Unit) :
    ∀ (d fuel k : Nat), d < fuel →
      (∀ m, m < d → body (k + m) = .ok ()) →
      body (k + d) = .keyboardInterrupt →
      watch_loop body fuel k = some 0 := by
  intro d
  induction d with
  | zero =>
    intro fuel k hf _ hint
    cases fuel with
    | zero => exact absurd hf (Nat.not_lt_zero 0)
    | succ f =>
      have hk : body k = .keyboardInterrupt := by simpa using hint
      simp [watch_loop, hk]
  | succ d ih =>
    intro fuel k hf hok hint
    cases fuel with
    | zero => exact absurd hf (Nat.not_lt_zero _)
    | succ f =>
      have h0 : body k = .ok () := by simpa using hok 0 (Nat.succ_pos d)
      have hrec : watch_loop body f (k + 1) = some 0 := by
        apply ih f (k + 1) (Nat.lt_of_succ_lt_succ hf)
        · intro m hm
          have e : k + 1 + m = k + (m + 1) := by omega
          rw [e]
          exact hok (m + 1) (Nat.succ_lt_succ hm)
        · have e : k + 1 + d = k + (d + 1) := by omega
          rw [e]
          exact hint
      simp [watch_loop, h0, hrec]

theorem text_outputAux_cons_fault (cfg : Config) (limit : Nat) (r : Record)
    (rest : List Record) (counter : Nat) (e : PyFault)
    (hts : pyIntTS r.notification_timestamp = .error e) :
    text_outputAux cfg limit (r :: rest) counter = { out := [], result := .error e } := by
  simp [text_outputAux, hts]

theorem text_outputAux_cons_skip (cfg : Config) (limit : Nat) (r : Record)
    (rest : List Record) (counter : Nat) (n : Int)
    (hn : pyIntTS r.notification_timestamp = .ok n)
    (hc : r.notification_contact_name = none) :
    text_outputAux cfg limit (r :: rest) counter = text_outputAux cfg limit rest counter := by
  simp [text_outputAux, hn, hc]

theorem text_outputAux_cons_nomatch (cfg : Config) (limit : Nat) (r : Record)
    (rest : List Record) (counter : Nat) (n : Int) (c : String)
    (hn : pyIntTS r.notification_timestamp = .ok n)
    (hc : r.notification_contact_name = some c)
    (hf : cfg.filter c = false) :
    text_outputAux cfg limit (r :: rest) counter = text_outputAux cfg limit rest counter := by
  simp [text_outputAux, hn, hc, hf]

theorem text_outputAux_cons_break (cfg : Config) (limit : Nat) (r : Record)
    (rest : List Record) (counter : Nat) (n : Int) (c : String)
    (hn : pyIntTS r.notification_timestamp = .ok n)
    (hc : r.notification_contact_name = some c)
    (hf : cfg.filter c = true)
    (hcl : ¬ counter < limit) :
    text_outputAux cfg limit (r :: rest) counter = { out := [], result := .ok () } := by
  simp [text_outputAux, hn, hc, hf, hcl]

theorem text_outputAux_cons_print (cfg : Config) (limit : Nat) (r : Record)
    (rest : List Record) (counter : Nat) (n : Int) (c hv sv stv : String)
    (hn : pyIntTS r.notification_timestamp = .ok n)
    (hc : r.notification_contact_name = some c)
    (hf : cfg.filter c = true)
    (hcl : counter < limit)
    (hhv : r.host_name = some hv)
    (hsvv : r.service_display_name = some sv)
    (hstv : state_string r.notification_state = some stv) :
    text_outputAux cfg limit (r :: rest) counter =
      { out :=
          (String.intercalate " | "
              [pad2 (counter + 1), show_time cfg.tzOffset n, stv, hv, sv] ::
            (if cfg.disable_urls then [] else [urlLine r.url])) ++
            (text_outputAux cfg limit rest (counter + 1)).out,
        result := (text_outputAux cfg limit rest (counter + 1)).result } := by
  simp only [text_outputAux, hn, hc, hf, hcl, if_true, hhv, hsvv, hstv, pyJoin, seqOpts,
    Option.map_some']
  cases cfg.disable_urls <;> simp

theorem text_outputAux_ok_eq (cfg : Config) (limit : Nat) :
    ∀ (l : List Record) (counter : Nat),
      (∀ r ∈ l, (∃ n, pyIntTS r.notification_timestamp = .ok n) ∧
        (keep cfg r = true → printable r = true)) →
      text_outputAux cfg limit l counter =
        { out := (((l.filter (keep cfg)).take (limit - counter)).enumFrom counter).flatMap
            (fun p => renderOk cfg p.1 p.2),
          result := .ok () } := by
  intro l
  induction l with
  | nil =>
    intro counter _
    simp [text_outputAux]
  | cons r rest ih =>
    intro counter hgood
    obtain ⟨⟨n, hn⟩, hkeep⟩ := hgood r (by simp)
    have hrest : ∀ x ∈ rest, (∃ n, pyIntTS x.notification_timestamp = .ok n) ∧
        (keep cfg x = true → printable x = true) := fun x hx => hgood x (by simp [hx])
    cases hc : r.notification_contact_name with
    | none =>
      have hk : keep cfg r = false := by simp [keep, hc]
      rw [text_outputAux_cons_skip cfg limit r rest counter n hn hc, ih counter hrest]
      simp [List.filter_cons, hk]
    | some c =>
      cases hf : cfg.filter c with
      | false =>
        have hk : keep cfg r = false := by simp [keep, hc, hf]
        rw [text_outputAux_cons_nomatch cfg limit r rest counter n c hn hc hf, ih counter hrest]
        simp [List.filter_cons, hk]
      | true =>
        have hk : keep cfg r = true := by simp [keep, hc, hf]
        by_cases hcl : counter < limit
        · have hpr := hkeep hk
          obtain ⟨⟨hh, hsv⟩, hst⟩ : (r.host_name.isSome = true ∧
              r.service_display_name.isSome = true) ∧
              (state_string r.notification_state).isSome = true := by
            simpa [printable, Bool.and_eq_true] using hpr
          obtain ⟨hv, hhv⟩ := Option.isSome_iff_exists.mp hh
          obtain ⟨sv, hsvv⟩ := Option.isSome_iff_exists.mp hsv
          obtain ⟨stv, hstv⟩ := Option.isSome_iff_exists.mp hst
          rw [text_outputAux_cons_print cfg limit r rest counter n c hv sv stv
            hn hc hf hcl hhv hsvv hstv, ih (counter + 1) hrest]
          have hsub : limit - counter = (limit - (counter + 1)) + 1 := by omega
          rw [hsub]
          simp only [List.filter_cons, hk, if_true, List.take_succ_cons, List.enumFrom,
            List.flatMap_cons]
          simp only [renderOk, tsOf, hn, hstv, hhv, hsvv, Option.getD_some]
        · have h0 : limit - counter = 0 := by omega
          rw [text_outputAux_cons_break cfg limit r rest counter n c hn hc hf hcl]
          simp [h0]

theorem tsKeyLe_trans (x y z : Option TSVal) (h1 : tsKeyLe x y = true)
    (h2 : tsKeyLe y z = true) : tsKeyLe x z = true := by
  cases x with
  | none => rfl
  | some a =>
    cases y with
    | none => simp [tsKeyLe] at h1
    | some b =>
      cases z with
      | none => simp [tsKeyLe] at h2
      | some cc =>
        cases a with
        | num na =>
          cases b with
          | num nb =>
            cases cc with
            | num nc =>
              simp only [tsKeyLe, decide_eq_true_eq] at h1 h2 ⊢
              omega
            | str sc => rfl
          | str sb =>
            cases cc with
            | num nc => simp [tsKeyLe] at h2
            | str sc => rfl
        | str sa =>
          cases b with
          | num nb => simp [tsKeyLe] at h1
          | str sb =>
            cases cc with
            | num nc => simp [tsKeyLe] at h2
            | str sc =>
              simp only [tsKeyLe, decide_eq_true_eq] at h1 h2 ⊢
              exact le_trans h1 h2

theorem tsKeyLe_total (x y : Option TSVal) : (tsKeyLe x y || tsKeyLe y x) = true := by
  cases x with
  | none => simp [tsKeyLe]
  | some a =>
    cases y with
    | none => simp [tsKeyLe]
    | some b =>
      cases a with
      | num na =>
        cases b with
        | num nb =>
          simp only [tsKeyLe, Bool.or_eq_true, decide_eq_true_eq]
          omega
        | str sb => simp [tsKeyLe]
      | str sa =>
        cases b with
        | num nb => simp [tsKeyLe]
        | str sb =>
          simp only [tsKeyLe, Bool.or_eq_true, decide_eq_true_eq]
          exact le_total sa.data sb.data

theorem pairwise_of_length_le_one {α : Type} {R : α → α → Prop} (l : List α)
    (h : l.length ≤ 1) : l.Pairwise R := by
  match l with
  | [] => exact List.Pairwise.nil
  | [a] => simp
  | a :: b :: t => simp [List.length_cons] at h

theorem isNumKey_iff (r : Record) : isNumKey r = true ↔ ∃ n, sort_by_ts r = some (.num n) := by
  cases hsr : sort_by_ts r with
  | none => simp [isNumKey, hsr]
  | some t =>
    cases t with
    | num n => simp [isNumKey, hsr]
    | str s => simp [isNumKey, hsr]

theorem isStrKey_iff (r : Record) : isStrKey r = true ↔ ∃ s, sort_by_ts r = some (.str s) := by
  cases hsr : sort_by_ts r with
  | none => simp [isStrKey, hsr]
  | some t =>
    cases t with
    | num n => simp [isStrKey, hsr]
    | str s => simp [isStrKey, hsr]

theorem data_of_instancesAux_ok (fetch : String → Except Unit (List Record))
    (instances : List String) (outs : List (List Record))
    (hfa : List.Forall₂ (fun i out => get_instance_notifications fetch i =
      { out := [], result := Except.ok out }) instances outs) :
    ∀ acc, data_of_instancesAux fetch instances acc =
      { out := [], result := .ok (acc ++ outs.flatten) } := by
  induction hfa with
  | nil =>
    intro acc
    simp [data_of_instancesAux]
  | @cons i out is outs2 hio htail ih =>
    intro acc
    simp only [data_of_instancesAux, hio]
    rw [ih (acc ++ out)]
    simp [List.append_assoc]

/-! ### Claims -/

/-- Claim C1 counterexample: the wire format allows one instance to answer
with numeric timestamps and another with numeric strings; on that reachable
input `data_of_instances` does not return the sorted concatenation — the
sort compares the two raw values, which raises `TypeError` (src line 80)
and aborts the run. -/
theorem mixed_timestamp_kinds_abort :
    data_of_instances fetchMixed ["https://num.example", "https://str.example"] =
      { out := [], result := .error PyFault.typeError } := by
  rfl

/-- Claim C1 (amended): for every list of instances whose fetches succeed,
when the concatenated records' raw `notification_timestamp` values are
pairwise comparable — at most one record, or all numeric, or all numeric
strings — `data_of_instances` prints nothing and returns the concatenation
of the per-instance record lists (a permutation: all fields preserved, no
deduplication) sorted so that every pair of records, in particular every
adjacent pair, satisfies earlier-timestamp ≥ later-timestamp under
Python's own comparison of the raw values; when two or more records carry
raw values of different kinds (or absent ones), the sort raises
`TypeError` and the run aborts. -/
theorem data_of_instances_concat_sorted (fetch : String → Except Unit (List Record))
    (instances : List String) (outs : List (List Record))
    (hfa : List.Forall₂ (fun i out => get_instance_notifications fetch i =
      { out := [], result := Except.ok out }) instances outs) :
    (tsKeysComparable outs.flatten = true →
      data_of_instances fetch instances =
        { out := [], result := .ok (sortDescByTs outs.flatten) } ∧
      (sortDescByTs outs.flatten).Perm outs.flatten ∧
      (sortDescByTs outs.flatten).Pairwise
        (fun a b => tsRawGe (sort_by_ts a) (sort_by_ts b))) ∧
    (tsKeysComparable outs.flatten = false →
      data_of_instances fetch instances =
        { out := [], result := .error PyFault.typeError }) := by
  have hok := data_of_instancesAux_ok fetch instances outs hfa []
  constructor
  · intro hcomp
    refine ⟨?_, ?_, ?_⟩
    · simp [data_of_instances, hok, pySortByTsDesc, hcomp]
    · exact List.mergeSort_perm outs.flatten _
    · have hcomp' := hcomp
      simp only [tsKeysComparable, Bool.or_eq_true, decide_eq_true_eq,
        List.all_eq_true] at hcomp'
      rcases hcomp' with (hlen | hnum) | hstr
      · refine pairwise_of_length_le_one (sortDescByTs outs.flatten) ?_
        calc (sortDescByTs outs.flatten).length
            = outs.flatten.length := (List.mergeSort_perm outs.flatten _).length_eq
          _ ≤ 1 := hlen
      · have hsorted := @List.sorted_mergeSort Record
          (fun a b => tsKeyLe (sort_by_ts b) (sort_by_ts a))
          (fun a b c h1 h2 => tsKeyLe_trans _ _ _ h2 h1)
          (fun a b => tsKeyLe_total (sort_by_ts b) (sort_by_ts a))
          outs.flatten
        refine List.Pairwise.imp_of_mem ?_ hsorted
        intro a b ha hb hle
        have hma : a ∈ outs.flatten := (List.mergeSort_perm outs.flatten _).subset ha
        have hmb : b ∈ outs.flatten := (List.mergeSort_perm outs.flatten _).subset hb
        obtain ⟨na, hna⟩ := (isNumKey_iff a).mp (hnum a hma)
        obtain ⟨nb, hnb⟩ := (isNumKey_iff b).mp (hnum b hmb)
        rw [hna, hnb] at hle
        rw [hna, hnb]
        simp only [tsKeyLe, decide_eq_true_eq] at hle
        simpa [tsRawGe] using hle
      · have hsorted := @List.sorted_mergeSort Record
          (fun a b => tsKeyLe (sort_by_ts b) (sort_by_ts a))
          (fun a b c h1 h2 => tsKeyLe_trans _ _ _ h2 h1)
          (fun a b => tsKeyLe_total (sort_by_ts b) (sort_by_ts a))
          outs.flatten
        refine List.Pairwise.imp_of_mem ?_ hsorted
        intro a b ha hb hle
        have hma : a ∈ outs.flatten := (List.mergeSort_perm outs.flatten _).subset ha
        have hmb : b ∈ outs.flatten := (List.mergeSort_perm outs.flatten _).subset hb
        obtain ⟨sa, hsa⟩ := (isStrKey_iff a).mp (hstr a hma)
        obtain ⟨sb, hsb⟩ := (isStrKey_iff b).mp (hstr b hmb)
        rw [hsa, hsb] at hle
        rw [hsa, hsb]
        simp only [tsKeyLe, decide_eq_true_eq] at hle
        simpa [tsRawGe] using hle
  · intro hcomp
    simp [data_of_instances, hok, pySortByTsDesc, hcomp]

/-- Witness for the amended C1: a single instance returning a single row
with a numeric timestamp. -/
theorem data_of_instances_concat_sorted_witness :
    List.Forall₂ (fun i out => get_instance_notifications fetchOne i =
      { out := [], result := Except.ok out })
      ["https://one.example"] [[recRawDecorated]] ∧
    tsKeysComparable ([[recRawDecorated]] : List (List Record)).flatten = true ∧
    data_of_instances fetchOne ["https://one.example"] =
      { out := [],
        result := .ok (sortDescByTs ([[recRawDecorated]] : List (List Record)).flatten) } := by
  have hfa : List.Forall₂ (fun i out => get_instance_notifications fetchOne i =
      { out := [], result := Except.ok out })
      ["https://one.example"] [[recRawDecorated]] :=
    List.Forall₂.cons rfl List.Forall₂.nil
  exact ⟨hfa, rfl,
    ((data_of_instances_concat_sorted fetchOne ["https://one.example"]
      [[recRawDecorated]] hfa).1 rfl).1⟩

/-- Claim C2: when every record of the input is processable (its raw
timestamp converts with `int(...)`, and each record passing the contact
filter has the joined fields present), `text_output` prints exactly the
first `L` records of the input whose contact name is present and matches
the filter, in input order, numbered by the two-digit zero-padded 1-based
sequence counter, and it prints at most `L` records. -/
theorem text_output_take_filter (cfg : Config) (L : Nat) (l : List Record)
    (hgood : ∀ r ∈ l, (∃ n, pyIntTS r.notification_timestamp = Except.ok n) ∧
      (keep cfg r = true → printable r = true)) :
    text_output cfg l L =
      { out := (((l.filter (keep cfg)).take L).enumFrom 0).flatMap
          (fun p => renderOk cfg p.1 p.2),
        result := .ok () } ∧
    ((l.filter (keep cfg)).take L).length ≤ L := by
  constructor
  · have h := text_outputAux_ok_eq cfg L l 0 hgood
    simpa [text_output] using h
  · rw [List.length_take]
    exact inf_le_left

/-- Witness for C2. -/
theorem text_output_take_filter_witness :
    (∀ r ∈ ([recGood] : List Record),
      (∃ n, pyIntTS r.notification_timestamp = Except.ok n) ∧
      (keep cfgEx r = true → printable r = true)) ∧
    text_output cfgEx [recGood] 10 =
      { out := ((([recGood].filter (keep cfgEx)).take 10).enumFrom 0).flatMap
          (fun p => renderOk cfgEx p.1 p.2),
        result := .ok () } := by
  have hgood : ∀ r ∈ ([recGood] : List Record),
      (∃ n, pyIntTS r.notification_timestamp = Except.ok n) ∧
      (keep cfgEx r = true → printable r = true) := by
    intro r hr
    simp only [List.mem_singleton] at hr
    subst hr
    exact ⟨⟨1700000000, rfl⟩, fun _ => rfl⟩
  exact ⟨hgood, (text_output_take_filter cfgEx 10 [recGood] hgood).1⟩

/-- Claim C3: a record whose `notification_contact_name` is absent is never
printed and never counted toward the limit: as long as its raw timestamp
converts (so that examining it does not abort the run), deleting it from
the input leaves the whole output of `text_output` unchanged, wherever it
occurs. -/
theorem absent_contact_never_printed (cfg : Config) (limit : Nat) (l1 l2 : List Record)
    (r : Record)
    (hcontact : r.notification_contact_name = none)
    (hts : ∃ n, pyIntTS r.notification_timestamp = Except.ok n) :
    text_output cfg (l1 ++ r :: l2) limit = text_output cfg (l1 ++ l2) limit :=
  text_outputAux_skip_absent cfg limit r l2 hcontact hts l1 0

/-- Witness for C3. -/
theorem absent_contact_never_printed_witness :
    recSkipOk.notification_contact_name = none ∧
    text_output cfgEx ([recGood] ++ recSkipOk :: []) 10 =
      text_output cfgEx ([recGood] ++ []) 10 :=
  ⟨rfl, absent_contact_never_printed cfgEx 10 [recGood] [] recSkipOk rfl ⟨0, rfl⟩⟩

/-- Claim C4 counterexample: scanning does NOT stop at the limit-th printed
record.  With limit 1, after `recGood` is printed, the following record is
still examined: its raw timestamp is converted with `int(...)`.  The two
inputs below differ only in a record positioned after the limit-th printed
one (a filtered-out record, contact absent), yet the observable outputs
differ: the unparseable timestamp raises `ValueError` in one run and not in
the other. -/
theorem modification_after_limit_changes_output :
    text_output cfgEx [recGood, recBadTs] 1 ≠ text_output cfgEx [recGood, recSkipOk] 1 := by
  decide

/-- Claim C4 (amended): once `limit` records have been printed, no further
record is printed: the next record whose contact name is present and
matches the filter triggers the `break`, and the records after it are
never examined (the output is the same for every continuation of the
list).  However, scanning does not stop before that point: a record that
fails the contact checks is skipped and scanning continues, and every
record examined after the limit — skipped or breaking — still has its raw
timestamp converted first, so an inconvertible timestamp there still
aborts the run. -/
theorem text_output_post_limit (cfg : Config) (limit counter : Nat) (hcl : limit ≤ counter) :
    (∀ (r : Record) (c : String) (rest : List Record),
        r.notification_contact_name = some c → cfg.filter c = true →
        (∃ n, pyIntTS r.notification_timestamp = Except.ok n) →
        text_outputAux cfg limit (r :: rest) counter = { out := [], result := .ok () }) ∧
    (∀ (r : Record) (rest : List Record),
        keep cfg r = false →
        (∃ n, pyIntTS r.notification_timestamp = Except.ok n) →
        text_outputAux cfg limit (r :: rest) counter =
          text_outputAux cfg limit rest counter) ∧
    (∀ (r : Record) (rest : List Record) (e : PyFault),
        pyIntTS r.notification_timestamp = Except.error e →
        text_outputAux cfg limit (r :: rest) counter = { out := [], result := .error e }) := by
  refine ⟨?_, ?_, ?_⟩
  · intro r c rest hc hf hts
    obtain ⟨n, hn⟩ := hts
    exact text_outputAux_cons_break cfg limit r rest counter n c hn hc hf (by omega)
  · intro r rest hk hts
    obtain ⟨n, hn⟩ := hts
    cases hc : r.notification_contact_name with
    | none => exact text_outputAux_cons_skip cfg limit r rest counter n hn hc
    | some c =>
      exact text_outputAux_cons_nomatch cfg limit r rest counter n c hn hc
        (by simpa [keep, hc] using hk)
  · intro r rest e he
    exact text_outputAux_cons_fault cfg limit r rest counter e he

/-- Witness for the amended C4. -/
theorem text_output_post_limit_witness :
    1 ≤ 1 ∧
    text_outputAux cfgEx 1 [recGood, recBadTs] 1 = { out := [], result := .ok () } :=
  ⟨le_refl 1,
    (text_output_post_limit cfgEx 1 1 (le_refl 1)).1 recGood "alice" [recBadTs]
      rfl rfl ⟨1700000000, rfl⟩⟩

/-- Claim C5: `generate_url` produces the host deep link when no service is
given and the service deep link otherwise, by plain concatenation. -/
theorem generate_url_forms (i h s : String) :
    generate_url i (some h) none = i ++ "/dashboard#!/monitoring/host/show?host=" ++ h ∧
    generate_url i (some h) (some s) =
      i ++ "/dashboard#!/monitoring/service/show?host=" ++ h ++ "&service=" ++ s :=
  ⟨rfl, rfl⟩

/-- Claim C6: `state_string` maps the four state codes to their colored
tokens and returns every other value (including an absent one) unchanged
and uncolored. -/
theorem state_string_mapping :
    state_string (some "0") = some (Fore_GREEN ++ "OK" ++ Fore_RESET) ∧
    state_string (some "1") = some (Fore_YELLOW ++ "WARN" ++ Fore_RESET) ∧
    state_string (some "2") = some (Fore_RED ++ "CRIT" ++ Fore_RESET) ∧
    state_string (some "3") = some (Fore_CYAN ++ "UNKN" ++ Fore_RESET) ∧
    state_string none = none ∧
    ∀ s : String, s ∉ (["0", "1", "2", "3"] : List String) → state_string (some s) = some s := by
  refine ⟨rfl, rfl, rfl, rfl, rfl, ?_⟩
  intro s hs
  simp only [List.mem_cons, List.not_mem_nil, or_false, not_or] at hs
  obtain ⟨h0, h1, h2, h3⟩ := hs
  simp [state_string, h0, h1, h2, h3]

/-- Witness for C6: the unrecognized code `9` renders verbatim. -/
theorem state_string_mapping_witness :
    ("9" : String) ∉ (["0", "1", "2", "3"] : List String) ∧
    state_string (some "9") = some "9" :=
  ⟨by decide, state_string_mapping.2.2.2.2.2 "9" (by decide)⟩

/-- Claim C7: when some instance's response body fails to parse as JSON
(while the instances before it parse fine), the whole run prints exactly
the diagnostic naming that instance and terminates with `SystemExit 1` —
a non-zero status — producing no notification output, since all fetching
precedes any printing of records. -/
theorem json_decode_error_aborts (fetch : String → Except Unit (List Record)) (cfg : Config)
    (l1 : List String) (i : String) (l2 : List String)
    (hok : ∀ j ∈ l1, ∃ rows, fetch j = .ok rows)
    (hfail : fetch i = .error ()) :
    show_data fetch { cfg with instances := l1 ++ i :: l2 } =
      { out := ["error decoding json from " ++ i ++ ". Login error?"],
        result := .error (.systemExit 1) } := by
  simp [show_data, data_of_instances, data_of_instancesAux_fail fetch i l2 hfail l1 [] hok]

/-- Witness for C7. -/
theorem json_decode_error_aborts_witness :
    (∀ j ∈ (["https://good.example"] : List String), ∃ rows, fetchEx j = Except.ok rows) ∧
    show_data fetchEx { cfgEx with instances := ["https://good.example"] ++ "https://bad.example" :: [] } =
      { out := ["error decoding json from " ++ "https://bad.example" ++ ". Login error?"],
        result := .error (.systemExit 1) } := by
  have hok : ∀ j ∈ (["https://good.example"] : List String), ∃ rows, fetchEx j = Except.ok rows := by
    intro j hj
    simp only [List.mem_singleton] at hj
    subst hj
    exact ⟨[], rfl⟩
  exact ⟨hok, json_decode_error_aborts fetchEx cfgEx ["https://good.example"]
    "https://bad.example" [] hok rfl⟩

/-- Claim C8 counterexample: a record whose `service_display_name` is
absent is not rendered with a blank display name — `" | ".join` raises
`TypeError` and the run aborts with nothing printed, so the display name
cannot be absent, only blank. -/
theorem absent_service_display_aborts :
    text_output cfgEx [recNoService] 10 = { out := [], result := .error PyFault.typeError } := by
  rfl

/-- Claim C8 (amended): every printed record is rendered as one line whose
fields are joined by `" | "` in the order: two-digit zero-padded 1-based
sequence number, formatted local timestamp, colorized state token, host
name, service display name — all of which must be present as strings (the
display name may be blank but not absent, else the join raises
`TypeError`) — followed, unless URL display is disabled, by a second
indented line carrying the decorated URL between green/bright and reset
escape codes. -/
theorem text_output_line_format (cfg : Config) (L : Nat) (l : List Record)
    (hgood : ∀ r ∈ l, (∃ n, pyIntTS r.notification_timestamp = Except.ok n) ∧
      (keep cfg r = true → printable r = true)) :
    text_output cfg l L =
      { out := (((l.filter (keep cfg)).take L).enumFrom 0).flatMap
          (fun p =>
            String.intercalate " | "
                [pad2 (p.1 + 1), show_time cfg.tzOffset (tsOf p.2),
                  (state_string p.2.notification_state).getD "", p.2.host_name.getD "",
                  p.2.service_display_name.getD ""] ::
              (if cfg.disable_urls then []
               else ["   `-" ++ Fore_GREEN ++ Style_BRIGHT ++ pyFStr p.2.url ++ Style_RESET_ALL])),
        result := .ok () } := by
  have h := text_outputAux_ok_eq cfg L l 0 hgood
  simpa [text_output, renderOk, urlLine] using h

/-- Witness for the amended C8. -/
theorem text_output_line_format_witness :
    (∀ r ∈ ([recGood] : List Record),
      (∃ n, pyIntTS r.notification_timestamp = Except.ok n) ∧
      (keep cfgEx r = true → printable r = true)) ∧
    text_output cfgEx [recGood] 7 =
      { out := ((([recGood].filter (keep cfgEx)).take 7).enumFrom 0).flatMap
          (fun p =>
            String.intercalate " | "
                [pad2 (p.1 + 1), show_time cfgEx.tzOffset (tsOf p.2),
                  (state_string p.2.notification_state).getD "", p.2.host_name.getD "",
                  p.2.service_display_name.getD ""] ::
              (if cfgEx.disable_urls then []
               else ["   `-" ++ Fore_GREEN ++ Style_BRIGHT ++ pyFStr p.2.url ++ Style_RESET_ALL])),
        result := .ok () } := by
  have hgood : ∀ r ∈ ([recGood] : List Record),
      (∃ n, pyIntTS r.notification_timestamp = Except.ok n) ∧
      (keep cfgEx r = true → printable r = true) := by
    intro r hr
    simp only [List.mem_singleton] at hr
    subst hr
    exact ⟨⟨1700000000, rfl⟩, fun _ => rfl⟩
  exact ⟨hgood, text_output_line_format cfgEx 7 [recGood] hgood⟩

/-- Claim C9 counterexample: in single-run mode (no `--watch`), nothing
handles `KeyboardInterrupt`, so an interrupt during the run does not
terminate the process with a success status. -/
theorem single_run_interrupt_nonzero :
    run_main false (fun _ => PyResult.keyboardInterrupt) 1 ≠ some 0 := by
  decide

/-- Claim C9 (amended): in watch mode, a keyboard interrupt delivered
during any iteration of the loop body terminates the process cleanly with
exit status 0; in single-run mode the interrupt is unhandled and the exit
status is non-zero (see the counterexample). -/
theorem watch_interrupt_exits_zero (body : Nat → PyResult Unit) (k fuel : Nat)
    (hok : ∀ m, m < k → body m = .ok ())
    (hint : body k = .keyboardInterrupt)
    (hfuel : k < fuel) :
    run_main true body fuel = some 0 := by
  have h := watch_loop_interrupt body k fuel 0 hfuel
    (fun m hm => by simpa using hok m hm) (by simpa using hint)
  simpa [run_main] using h

/-- Witness for the amended C9: interrupted in the second iteration. -/
theorem watch_interrupt_exits_zero_witness :
    (∀ m, m < 1 → bodyEx m = .ok ()) ∧ bodyEx 1 = .keyboardInterrupt ∧
    run_main true bodyEx 2 = some 0 := by
  have hok : ∀ m, m < 1 → bodyEx m = .ok () := by
    intro m hm
    have h0 : m = 0 := Nat.lt_one_iff.mp hm
    subst h0
    rfl
  exact ⟨hok, rfl, watch_interrupt_exits_zero bodyEx 1 2 hok rfl (by omega)⟩

/-- Claim C10: `text_output` converts the raw timestamp of every record it
examines before any filtering, so a record whose `notification_timestamp`
is absent or not `int`-convertible makes the whole printing pass fail with
that exception, even when the record's contact name is absent and the
record would never have been displayed. -/
theorem examined_record_requires_int_timestamp (cfg : Config) (limit : Nat) (r : Record)
    (rest : List Record) (e : PyFault)
    (hcontact : r.notification_contact_name = none)
    (hts : pyIntTS r.notification_timestamp = .error e) :
    text_output cfg (r :: rest) limit = { out := [], result := .error e } :=
  text_outputAux_cons_fault cfg limit r rest 0 e hts

/-- Witness for C10: a skipped record with a non-numeric timestamp string
aborts the pass with `ValueError`. -/
theorem examined_record_requires_int_timestamp_witness :
    recBadTs.notification_contact_name = none ∧
    pyIntTS recBadTs.notification_timestamp = .error PyFault.valueError ∧
    text_output cfgEx [recBadTs] 10 = { out := [], result := .error PyFault.valueError } :=
  ⟨rfl, rfl,
    examined_record_requires_int_timestamp cfgEx 10 recBadTs [] PyFault.valueError rfl rfl⟩

end Wtc
